import Mathlib

/-!
Verification development for a financial OCR pipeline.

The program loads a scanned financial document, runs OCR on each page in a
process pool, joins the page texts in page order, and offers a (skeleton)
parser that turns raw OCR text into a structured financial report.

This file embeds the relevant parts of the program:
* `src/utils/parsers.py` — `FinancialPeriodData`, `FinancialReportParser`
  (`parse`, `_extract_start_of_period`, `_extract_end_of_period`,
  `_calculate_metrics`);
* `src/main.py` / `src/text.py` — result gathering of `process_input`
  (per-page texts stored at their page index, joined in index order);
* `src/utils/worker.py` — `process_single_page` exception wrapping;
* `src/engines/PaddelOCR_engine.py` — `preprocess_image`.

Python dictionaries are embedded as association lists, numeric values as
rationals, fallible calls as `Except`, and the JSON-like dictionary returned
by `parse` as an explicit `JValue` tree mirroring the dict literal in the
source.
-/

namespace FinOCR

/-- `FinancialPeriodData` from `src/utils/parsers.py`: container for the data
of a single financial period — an optional date string and a mapping from
normalized line-item keys to numeric values. -/
structure FinancialPeriodData where
  date : Option String
  data : List (String × Rat)
deriving DecidableEq

/-- A JSON-like value, mirroring the JSON-serializable dict returned by
`FinancialReportParser.parse`. -/
inductive JValue where
  | null : JValue
  | str : String → JValue
  | num : Rat → JValue
  | obj : List (String × JValue) → JValue

/-- Field lookup in a JSON object (`d["key"]` on a Python dict). -/
def JValue.getField : JValue → String → Option JValue
  | .obj fields, k => fields.lookup k
  | _, _ => none

namespace FinancialReportParser

/-- `FinancialReportParser._extract_start_of_period`
(`src/utils/parsers.py` lines 96–108): placeholder implementation, returns
the empty structure `FinancialPeriodData(date=None, data={})` for every
input text. -/
def extract_start_of_period (text : String) : FinancialPeriodData :=
  { date := none, data := [] }

/-- `FinancialReportParser._extract_end_of_period`
(`src/utils/parsers.py` lines 110–119): placeholder implementation, returns
the empty structure `FinancialPeriodData(date=None, data={})` for every
input text. -/
def extract_end_of_period (text : String) : FinancialPeriodData :=
  { date := none, data := [] }

/-- `FinancialReportParser._calculate_metrics`
(`src/utils/parsers.py` lines 121–140): initializes `metrics = {}` and
returns it unchanged.  The growth-rate computation in the source is a
commented-out "example skeleton for future implementation" and is not
executed. -/
def calculate_metrics (start_period end_period : FinancialPeriodData) :
    List (String × Rat) :=
  []

/-- The `{"date": ..., "data": {...}}` sub-dictionary that `parse` builds for
one period (`None` becomes JSON null, the data dict becomes a JSON object of
numbers). -/
def periodJson (p : FinancialPeriodData) : JValue :=
  .obj [("date", match p.date with | some d => .str d | none => .null),
        ("data", .obj (p.data.map fun kv => (kv.1, JValue.num kv.2)))]

/-- `FinancialReportParser.parse` (`src/utils/parsers.py` lines 64–90).
The source draws `report_id = str(uuid4())`; `uuid4` is a standard-library
call outside the repository, so the drawn identifier is passed in as the
explicit argument `report_id`.  The rest mirrors the returned dict literal. -/
def parse (report_id : String) (text : String) : JValue :=
  let start_period := extract_start_of_period text
  let end_period := extract_end_of_period text
  let metrics := calculate_metrics start_period end_period
  .obj [("report_id", .str report_id),
        ("financial_period", .obj [
          ("start_of_period", periodJson start_period),
          ("end_of_period", periodJson end_period)]),
        ("calculated_metrics", .obj (metrics.map fun kv => (kv.1, JValue.num kv.2)))]

end FinancialReportParser

/-- `true` iff the value is JSON null or a JSON string (the documented type
of the `date` field: `<string|null>`). -/
def isNullOrStr : JValue → Bool
  | .null => true
  | .str _ => true
  | _ => false

/-- `true` iff every value of the field list is a JSON number. -/
def isNumEntries : List (String × JValue) → Bool
  | [] => true
  | (_, .num _) :: rest => isNumEntries rest
  | _ => false

/-- `true` iff the value is a JSON object mapping names to numbers. -/
def isNumMap : JValue → Bool
  | .obj fields => isNumEntries fields
  | _ => false

/-- `true` iff the value is a period object of the documented shape
`{"date": <string|null>, "data": {"<key>": <number>, ...}}`. -/
def isPeriodShape : JValue → Bool
  | .obj [("date", d), ("data", m)] => isNullOrStr d && isNumMap m
  | _ => false

/-- `true` iff the value has exactly the documented output shape of §6:
top-level keys `report_id` (a string), `financial_period` (with keys
`start_of_period` and `end_of_period`, each a period object), and
`calculated_metrics` (a mapping from metric name to number). -/
def isDocumentedShape : JValue → Bool
  | .obj [("report_id", .str _),
          ("financial_period", .obj [("start_of_period", sp), ("end_of_period", ep)]),
          ("calculated_metrics", cm)] =>
      isPeriodShape sp && isPeriodShape ep && isNumMap cm
  | _ => false

open FinancialReportParser

/-- C2: For every input text string, `FinancialReportParser.parse` returns
empty placeholders: both `start_of_period` and `end_of_period` have
`date = None` and `data = {}`, and `calculated_metrics = {}`; the result does
not depend on the text, so no actual extraction is performed. -/
theorem parse_returns_empty_placeholders (report_id text : String) :
    parse report_id text =
      .obj [("report_id", .str report_id),
            ("financial_period", .obj [
              ("start_of_period", .obj [("date", .null), ("data", .obj [])]),
              ("end_of_period", .obj [("date", .null), ("data", .obj [])])]),
            ("calculated_metrics", .obj [])] := rfl

/-- C3: For every input text string — including empty or malformed text and
text with no recognizable period section — each period extractor returns a
snapshot with `date` absent and an empty values mapping.  Both extractors are
total Lean functions, so no error is ever raised. -/
theorem extractors_return_empty_snapshot (text : String) :
    extract_start_of_period text = { date := none, data := [] } ∧
    extract_end_of_period text = { date := none, data := [] } :=
  ⟨rfl, rfl⟩

/-- C1 counterexample: with `tong_tai_san` present in both snapshots
(start value 100 ≠ 0, end value 120), the metric calculator's output does
NOT contain a `growth_rate` entry — the skeleton returns the empty mapping,
so the claimed value `(120 - 100) / 100` is not produced. -/
theorem calculate_metrics_growth_rate_missing :
    (List.lookup "tong_tai_san"
        (FinancialPeriodData.mk none [("tong_tai_san", (100 : Rat))]).data
      = some 100) ∧
    (List.lookup "tong_tai_san"
        (FinancialPeriodData.mk none [("tong_tai_san", (120 : Rat))]).data
      = some 120) ∧
    (100 : Rat) ≠ 0 ∧
    List.lookup "growth_rate"
        (calculate_metrics
          (FinancialPeriodData.mk none [("tong_tai_san", (100 : Rat))])
          (FinancialPeriodData.mk none [("tong_tai_san", (120 : Rat))]))
      = none := by
  refine ⟨rfl, rfl, by norm_num, rfl⟩

/-- C1 amended: for every pair of period snapshots in which `tong_tai_san`
is present in both snapshots and its start value is non-zero, the metric
calculator's output mapping is empty — in particular it does not contain the
growth-rate metric (the skeleton computes no metrics at all). -/
theorem calculate_metrics_empty_even_when_computable
    (s e : FinancialPeriodData) (v w : Rat)
    (hs : List.lookup "tong_tai_san" s.data = some v)
    (he : List.lookup "tong_tai_san" e.data = some w)
    (hv : v ≠ 0) :
    calculate_metrics s e = [] ∧
    List.lookup "growth_rate" (calculate_metrics s e) = none :=
  ⟨rfl, rfl⟩

/-- Witness for the amended C1 theorem at a concrete input. -/
theorem calculate_metrics_empty_even_when_computable_witness :
    calculate_metrics
        (FinancialPeriodData.mk none [("tong_tai_san", (100 : Rat))])
        (FinancialPeriodData.mk none [("tong_tai_san", (120 : Rat))]) = [] ∧
    List.lookup "growth_rate"
        (calculate_metrics
          (FinancialPeriodData.mk none [("tong_tai_san", (100 : Rat))])
          (FinancialPeriodData.mk none [("tong_tai_san", (120 : Rat))]))
      = none :=
  calculate_metrics_empty_even_when_computable
    (FinancialPeriodData.mk none [("tong_tai_san", (100 : Rat))])
    (FinancialPeriodData.mk none [("tong_tai_san", (120 : Rat))])
    100 120 rfl rfl (by norm_num)

/-- C4: parsing the same text twice with two distinct drawn identifiers
yields identical `financial_period` content and identical
`calculated_metrics`, while the `report_id` fields differ; moreover the
`report_id` field is exactly the drawn identifier, for every text — so it is
not derived from the text. -/
theorem parse_idempotent_content_fresh_id (text r1 r2 : String) (h : r1 ≠ r2) :
    (parse r1 text).getField "financial_period"
      = (parse r2 text).getField "financial_period" ∧
    (parse r1 text).getField "calculated_metrics"
      = (parse r2 text).getField "calculated_metrics" ∧
    (parse r1 text).getField "report_id" = some (.str r1) ∧
    (parse r2 text).getField "report_id" = some (.str r2) ∧
    (parse r1 text).getField "report_id" ≠ (parse r2 text).getField "report_id" := by
  refine ⟨rfl, rfl, rfl, rfl, ?_⟩
  intro heq
  rw [show (parse r1 text).getField "report_id" = some (.str r1) from rfl,
      show (parse r2 text).getField "report_id" = some (.str r2) from rfl] at heq
  exact h (by injection heq with h2; injection h2)

/-- Witness for C4 at a concrete input. -/
theorem parse_idempotent_content_fresh_id_witness :
    (parse "id-a" "some text").getField "financial_period"
      = (parse "id-b" "some text").getField "financial_period" ∧
    (parse "id-a" "some text").getField "calculated_metrics"
      = (parse "id-b" "some text").getField "calculated_metrics" ∧
    (parse "id-a" "some text").getField "report_id" = some (.str "id-a") ∧
    (parse "id-b" "some text").getField "report_id" = some (.str "id-b") ∧
    (parse "id-a" "some text").getField "report_id"
      ≠ (parse "id-b" "some text").getField "report_id" :=
  parse_idempotent_content_fresh_id "some text" "id-a" "id-b" (by decide)

/-- C6: whenever the target line item's start value is exactly 0, or the
line item is absent from either snapshot, the metric calculator's output
does not contain the corresponding metric key.  The calculator is a total
Lean function, so it raises no error. -/
theorem calculate_metrics_omits_uncomputable (s e : FinancialPeriodData)
    (h : List.lookup "tong_tai_san" s.data = none ∨
         List.lookup "tong_tai_san" s.data = some 0 ∨
         List.lookup "tong_tai_san" e.data = none) :
    List.lookup "growth_rate" (calculate_metrics s e) = none := rfl

/-- Witness for C6 at a concrete input (start value exactly 0). -/
theorem calculate_metrics_omits_uncomputable_witness :
    List.lookup "growth_rate"
        (calculate_metrics
          (FinancialPeriodData.mk none [("tong_tai_san", (0 : Rat))])
          (FinancialPeriodData.mk none [("tong_tai_san", (120 : Rat))]))
      = none :=
  calculate_metrics_omits_uncomputable
    (FinancialPeriodData.mk none [("tong_tai_san", (0 : Rat))])
    (FinancialPeriodData.mk none [("tong_tai_san", (120 : Rat))])
    (Or.inr (Or.inl rfl))

/-- C5: For every input text string (and every drawn report identifier), the
dictionary returned by `FinancialReportParser.parse` has exactly the
documented shape: top-level keys `report_id` (a string), `financial_period`
(with keys `start_of_period` and `end_of_period`, each with keys `date` and
`data`), and `calculated_metrics` (a mapping from metric name to number). -/
theorem parse_has_documented_shape (report_id text : String) :
    isDocumentedShape (parse report_id text) = true := rfl

/-- `true` iff `c` is a thousands/decimal separator character. -/
def isSepChar (c : Char) : Bool := c == '.' || c == ','

/-- The natural number denoted by a list of decimal digit characters. -/
def digitsToNat (cs : List Char) : Nat :=
  cs.foldl (fun a c => 10 * a + (c.toNat - '0'.toNat)) 0

/-- The characters strictly after the last occurrence of `c` in `cs`
(all of `cs` when `c` does not occur). -/
def afterLast (c : Char) (cs : List Char) : List Char :=
  (cs.reverse.takeWhile fun x => x != c).reverse

/-- The characters strictly before the last occurrence of `c` in `cs`
(empty when `c` does not occur). -/
def beforeLast (c : Char) (cs : List Char) : List Char :=
  ((cs.reverse.dropWhile fun x => x != c).drop 1).reverse

/-- Modelled from the spec: the numeric-token normalization of the Period
Extractor, which is absent from the source (the body of
`FinancialReportParser._extract_start_of_period` is a placeholder whose TODO
asks to "parse numeric values, normalizing thousand separators and decimal
commas").  Per the spec (§4.1, §8): locale-specific thousands separators and
decimal markers (period-as-thousands / comma-as-decimal, or the reverse) are
normalized to one canonical decimal; a parenthesized figure (accounting
convention) is negative.  When both `.` and `,` occur, the later-occurring
separator is the decimal marker and the other is the thousands separator;
when a single separator occurs once and is followed by exactly three digits
it is a thousands separator, otherwise it is the decimal marker; a separator
occurring several times is a thousands separator.  An unparseable token
yields `none` (treated as an extraction miss). -/
def normalizeNumericToken (s : String) : Option Rat :=
  let cs0 := s.toList
  let neg : Bool := cs0.head? == some '(' && cs0.getLast? == some ')'
  let cs := if neg then (cs0.drop 1).dropLast else cs0
  if !(cs.all fun c => c.isDigit || isSepChar c) || !(cs.any Char.isDigit) then
    none
  else
    let dots := cs.count '.'
    let commas := cs.count ','
    let decSep : Option Char :=
      if dots > 0 && commas > 0 then
        (cs.filter isSepChar).getLast?
      else if dots + commas == 1 then
        let c := if dots == 1 then '.' else ','
        if (afterLast c cs).length == 3 then none else some c
      else
        none
    let value : Option Rat :=
      match decSep with
      | none => some ((digitsToNat (cs.filter Char.isDigit) : Rat))
      | some c =>
        let frac := afterLast c cs
        let intPart := (beforeLast c cs).filter Char.isDigit
        if frac.all Char.isDigit && frac.length > 0 then
          some ((digitsToNat intPart : Rat)
            + (digitsToNat frac : Rat) / (10 : Rat) ^ frac.length)
        else
          none
    value.map fun v => if neg then -v else v

/-- C7: numeric token normalization maps both locale conventions to the same
canonical decimal — "1.234.567,89" and "1,234,567.89" each normalize to
1234567.89 (= 123456789/100) — and the parenthesized accounting-negative
token "(500.000)" normalizes to -500000. -/
theorem numeric_normalization_locale_conventions :
    normalizeNumericToken "1.234.567,89" = some ((123456789 : Rat) / 100) ∧
    normalizeNumericToken "1,234,567.89" = some ((123456789 : Rat) / 100) ∧
    normalizeNumericToken "(500.000)" = some (-500000 : Rat) := by
  refine ⟨?_, ?_, ?_⟩
  · rw [show normalizeNumericToken "1.234.567,89"
        = some ((1234567 : Rat) + (89 : Rat) / (10 : Rat) ^ 2) from rfl]
    exact congrArg some (by norm_num)
  · rw [show normalizeNumericToken "1,234,567.89"
        = some ((1234567 : Rat) + (89 : Rat) / (10 : Rat) ^ 2) from rfl]
    exact congrArg some (by norm_num)
  · rfl

/-- The page-break marker that `process_input` in `src/main.py` puts between
consecutive pages of the full text. -/
def pageBreakMarker : String := "\n\n--- PAGE BREAK ---\n\n"

/-- One iteration of the `as_completed` loop of `process_input`: when the
future for page `idx` succeeded, its text is stored at that page's index
(`texts[idx] = result`); when it failed, the exception is logged and
`texts[idx]` keeps its current value. -/
def applyResult (results : Nat → Except String String)
    (texts : List String) (idx : Nat) : List String :=
  match results idx with
  | .ok r => texts.set idx r
  | .error _ => texts

/-- The `texts` list after the `as_completed` loop: starting from
`[""] * len(images)`, the workers' results are applied in completion order
(`order` lists the page indices in the order their futures completed). -/
def gatherTexts (n : Nat) (results : Nat → Except String String)
    (order : List Nat) : List String :=
  order.foldl (applyResult results) (List.replicate n "")

/-- The text the loop ends up storing for page `i`: the OCR result when the
worker succeeded, the initial `""` when it failed. -/
def pageText (results : Nat → Except String String) (i : Nat) : String :=
  match results i with
  | .ok r => r
  | .error _ => ""

/-- `process_input` of `src/main.py` (lines 95–121), result-gathering part:
the per-page texts are gathered and joined with the page-break marker. -/
def process_input (n : Nat) (results : Nat → Except String String)
    (order : List Nat) : String :=
  String.intercalate pageBreakMarker (gatherTexts n results order)

/-- `FinancialOCR.process_input` of `src/text.py` (lines 230–249),
result-gathering part: the same `as_completed` loop, pages joined with a
blank line. -/
def FinancialOCR.process_input (n : Nat) (results : Nat → Except String String)
    (order : List Nat) : String :=
  String.intercalate "\n\n" (gatherTexts n results order)

theorem applyResult_length (results : Nat → Except String String)
    (texts : List String) (idx : Nat) :
    (applyResult results texts idx).length = texts.length := by
  unfold applyResult
  cases results idx <;> simp

theorem foldl_applyResult_length (results : Nat → Except String String)
    (order : List Nat) (texts : List String) :
    (order.foldl (applyResult results) texts).length = texts.length := by
  induction order generalizing texts with
  | nil => rfl
  | cons i rest ih => rw [List.foldl_cons, ih, applyResult_length]

theorem foldl_applyResult_getElem?_not_mem (results : Nat → Except String String)
    (order : List Nat) (texts : List String) (j : Nat) (hj : j ∉ order) :
    (order.foldl (applyResult results) texts)[j]? = texts[j]? := by
  induction order generalizing texts with
  | nil => rfl
  | cons i rest ih =>
    simp only [List.mem_cons, not_or] at hj
    rw [List.foldl_cons, ih _ hj.2]
    unfold applyResult
    cases results i with
    | ok r => exact List.getElem?_set_ne (fun h => hj.1 h.symm)
    | error e => rfl

theorem foldl_applyResult_getElem?_mem (results : Nat → Except String String)
    (order : List Nat) (j : Nat) (hjo : j ∈ order) (hnd : order.Nodup)
    (texts : List String) (hlen : j < texts.length) :
    (order.foldl (applyResult results) texts)[j]?
      = match results j with
        | .ok r => some r
        | .error _ => texts[j]? := by
  induction order generalizing texts with
  | nil => cases hjo
  | cons i rest ih =>
    rw [List.nodup_cons] at hnd
    rw [List.foldl_cons]
    rcases List.mem_cons.mp hjo with hji | hjr
    · subst hji
      rw [foldl_applyResult_getElem?_not_mem results rest _ j hnd.1]
      unfold applyResult
      cases results j with
      | ok r => exact List.getElem?_set_self hlen
      | error e => rfl
    · have hij : i ≠ j := fun h => hnd.1 (h ▸ hjr)
      have hlen' : j < (applyResult results texts i).length := by
        rw [applyResult_length]; exact hlen
      rw [ih hjr hnd.2 _ hlen']
      cases results j with
      | ok r => rfl
      | error e =>
        unfold applyResult
        cases results i with
        | ok r2 => exact List.getElem?_set_ne hij
        | error e2 => rfl

/-- After a completion order that is a permutation of the page indices, the
gathered list holds, at every index, the text of the page of that index. -/
theorem gatherTexts_eq_map (n : Nat) (results : Nat → Except String String)
    (order : List Nat) (h : order.Perm (List.range n)) :
    gatherTexts n results order = (List.range n).map (pageText results) := by
  have hnd : order.Nodup := h.nodup_iff.mpr (List.nodup_range n)
  apply List.ext_getElem?
  intro j
  by_cases hj : j < n
  · have hmem : j ∈ order := h.mem_iff.mpr (List.mem_range.mpr hj)
    have hlen : j < (List.replicate n ("" : String)).length := by
      simpa using hj
    rw [gatherTexts, foldl_applyResult_getElem?_mem results order j hmem hnd _ hlen]
    rw [List.getElem?_map, List.getElem?_range hj, Option.map_some']
    cases hres : results j with
    | ok r => simp [pageText, hres]
    | error e => simp [pageText, hres, List.getElem?_replicate, hj]
  · have h1 : (gatherTexts n results order).length = n := by
      rw [gatherTexts, foldl_applyResult_length]
      simp
    have h2 : (gatherTexts n results order)[j]? = none := by
      apply List.getElem?_eq_none
      rw [h1]
      omega
    have h3 : ((List.range n).map (pageText results))[j]? = none := by
      apply List.getElem?_eq_none
      simp only [List.length_map, List.length_range]
      omega
    rw [h2, h3]

/-- C8: for every page count, every assignment of worker outcomes to pages,
and every completion order that is a permutation of the page indices, each
completed result is stored at the index of its originating page, and the
full text returned by `process_input` is the per-page texts joined in the
original page-index order, separated by the page-break marker (`src/main.py`)
resp. a blank line (`src/text.py`) — regardless of the order in which the
worker futures completed. -/
theorem process_input_preserves_page_order (n : Nat)
    (results : Nat → Except String String) (order : List Nat)
    (h : order.Perm (List.range n)) :
    gatherTexts n results order = (List.range n).map (pageText results) ∧
    process_input n results order
      = String.intercalate pageBreakMarker ((List.range n).map (pageText results)) ∧
    FinancialOCR.process_input n results order
      = String.intercalate "\n\n" ((List.range n).map (pageText results)) := by
  have hg := gatherTexts_eq_map n results order h
  exact ⟨hg, by rw [process_input, hg], by rw [FinancialOCR.process_input, hg]⟩

/-- A concrete assignment of worker outcomes for the C8 witness: page 0 and
page 2 succeed, page 1 fails. -/
def witnessResults : Nat → Except String String :=
  fun i => if i == 0 then .ok "page one" else
           if i == 1 then .error "boom" else .ok "page three"

/-- Witness for C8 at a concrete input: three pages completing in the order
2, 0, 1. -/
theorem process_input_preserves_page_order_witness :
    gatherTexts 3 witnessResults [2, 0, 1]
      = (List.range 3).map (pageText witnessResults) ∧
    process_input 3 witnessResults [2, 0, 1]
      = String.intercalate pageBreakMarker ((List.range 3).map (pageText witnessResults)) ∧
    FinancialOCR.process_input 3 witnessResults [2, 0, 1]
      = String.intercalate "\n\n" ((List.range 3).map (pageText witnessResults)) :=
  process_input_preserves_page_order 3 witnessResults [2, 0, 1] (by decide)

/-- A Python exception value as seen by the worker: either an
`OCREngineError` (from `src/core/exceptions.py`), carrying its message and
its chained cause, or some other exception carrying its message. -/
inductive PyExc where
  | ocrEngineError (msg : String) (cause : Option PyExc)
  | other (msg : String)

/-- The message text of an exception (what interpolating the exception into
the error string produces). -/
def PyExc.message : PyExc → String
  | .ocrEngineError m _ => m
  | .other m => m

/-- `process_single_page` of `src/utils/worker.py` (lines 33–39): runs
engine construction (`_get_global_engine`), image conversion
(`Image.fromarray`) and the OCR call (`engine.ocr_page`) inside a
`try`/`except Exception` block, and re-raises any exception they raise as
`OCREngineError("Worker Error: ...") from exc`, chaining the original.  The
three fallible steps are passed in as `Except` computations. -/
def process_single_page {Engine Img : Type}
    (get_global_engine : Except PyExc Engine)
    (fromarray : Except PyExc Img)
    (ocr_page : Engine → Img → Except PyExc String) : Except PyExc String :=
  match (do
      let engine ← get_global_engine
      let image ← fromarray
      ocr_page engine image : Except PyExc String) with
  | .ok t => .ok t
  | .error exc =>
      .error (.ocrEngineError ("Worker Error: " ++ exc.message) (some exc))

/-- C9: `process_single_page` either returns the OCR text for the page, or
fails with an `OCREngineError` whose message wraps the original exception's
message and whose cause chains the original exception — whatever engine
construction, image conversion, and the OCR call do.  No other exception
shape escapes the worker function. -/
theorem process_single_page_ok_or_engine_error {Engine Img : Type}
    (get_global_engine : Except PyExc Engine)
    (fromarray : Except PyExc Img)
    (ocr_page : Engine → Img → Except PyExc String) :
    (∃ t, process_single_page get_global_engine fromarray ocr_page = .ok t) ∨
    (∃ exc, process_single_page get_global_engine fromarray ocr_page
        = .error (.ocrEngineError ("Worker Error: " ++ exc.message) (some exc))) := by
  unfold process_single_page
  cases get_global_engine with
  | error e => exact Or.inr ⟨e, rfl⟩
  | ok engine =>
    cases fromarray with
    | error e => exact Or.inr ⟨e, rfl⟩
    | ok img =>
      cases h : ocr_page engine img with
      | ok t =>
        exact Or.inl ⟨t, by simp [bind, Except.bind, h]⟩
      | error e =>
        exact Or.inr ⟨e, by simp [bind, Except.bind, h]⟩

/-- A PIL image, modelled by its mode string (e.g. `"RGB"`, `"L"`) and an
abstract pixel payload. -/
structure PILImage where
  mode : String
  data : List Nat
deriving DecidableEq

/-- `PaddleOCREngine.preprocess_image` of `src/engines/PaddelOCR_engine.py`
(lines 55–61): when the image's mode is not `'RGB'` it returns
`image.convert('RGB')`, otherwise it returns the image unchanged.  The
library call `Image.convert` is passed in as `convert`; PIL's contract that
converting to `'RGB'` yields an image in RGB mode is a hypothesis of the
theorem below. -/
def preprocess_image (convert : PILImage → String → PILImage)
    (image : PILImage) : PILImage :=
  if image.mode ≠ "RGB" then convert image "RGB" else image

/-- C10: `preprocess_image` always returns an image in RGB mode; when the
input is already in RGB mode it returns that image unchanged; consequently
the operation is idempotent. -/
theorem preprocess_image_rgb_idempotent
    (convert : PILImage → String → PILImage)
    (hconv : ∀ img, (convert img "RGB").mode = "RGB")
    (image : PILImage) :
    (preprocess_image convert image).mode = "RGB" ∧
    (image.mode = "RGB" → preprocess_image convert image = image) ∧
    preprocess_image convert (preprocess_image convert image)
      = preprocess_image convert image := by
  unfold preprocess_image
  by_cases h : image.mode = "RGB"
  · simp [h]
  · simp [h, hconv image]

/-- A concrete model of `Image.convert` for the C10 witness: produces an
image in the requested mode over the same payload. -/
def witnessConvert : PILImage → String → PILImage :=
  fun img m => { mode := m, data := img.data }

/-- Witness for C10 at a concrete input: a grayscale image. -/
theorem preprocess_image_rgb_idempotent_witness :
    (preprocess_image witnessConvert (PILImage.mk "L" [7])).mode = "RGB" ∧
    ((PILImage.mk "L" [7]).mode = "RGB" →
      preprocess_image witnessConvert (PILImage.mk "L" [7]) = PILImage.mk "L" [7]) ∧
    preprocess_image witnessConvert
        (preprocess_image witnessConvert (PILImage.mk "L" [7]))
      = preprocess_image witnessConvert (PILImage.mk "L" [7]) :=
  preprocess_image_rgb_idempotent witnessConvert (fun _ => rfl) (PILImage.mk "L" [7])

end FinOCR
